import Mathlib

/-!
Shallow embedding of the task execution core of `cryptom`
(`src/cryptom/engine.py`, with configuration shapes from
`src/cryptom/config.py`).

Python values flowing through the engine are modelled by `Val`; the
interpreter's `eval` built-in, the dependency resolver
(`CryptoEngine.get_data`), the bound ccxt function and the action runner
are modelled as oracle parameters, since their behaviour is external to
the engine code being verified.  Python exceptions are modelled with
`Except PyErr`; `ccxt.ExchangeNotAvailable` — the only exception class the
engine catches around a pass — is a distinguished `PyErr` constructor.
Wall-clock time (`time.time()`) is passed in explicitly.
-/

namespace CryptoM

/-- Model of a Python runtime value as the engine observes one.  `Val.none`
is Python `None`.  Structured values (dicts, lists, ccxt tickers …) are
opaque to the engine's control flow, so a representative constructor set
suffices. -/
inductive Val where
  | none
  | bool (b : Bool)
  | int (n : Int)
  | str (s : String)
  deriving Repr, DecidableEq

/-- Python truthiness, as used by `if not _eval(self.condition, context)`. -/
def Val.truthy : Val → Bool
  | Val.none => false
  | Val.bool b => b
  | Val.int n => n != 0
  | Val.str s => s != ""

/-- Python exceptions.  `exchangeNotAvailable` models
`ccxt.ExchangeNotAvailable`, the only class caught by
`TaskEngine._locked_execute`. -/
inductive PyErr where
  | exchangeNotAvailable
  | other (msg : String)
  deriving Repr, DecidableEq

/-- The expression context: a Python dict from names to values,
insertion-ordered with overwriting assignment. -/
abbrev Ctx := List (String × Val)

/-- Dict assignment `ctx[k] = v`: overwrite in place if present, else
append. -/
def Ctx.set : Ctx → String → Val → Ctx
  | [], k, v => [(k, v)]
  | (k0, v0) :: rest, k, v =>
    if k0 = k then (k0, v) :: rest else (k0, v0) :: Ctx.set rest k v

/-- Dict lookup `ctx[k]`, `Option.none` when the key is absent. -/
def Ctx.get : Ctx → String → Option Val
  | [], _ => Option.none
  | (k0, v0) :: rest, k => if k0 = k then some v0 else Ctx.get rest k

/-- Oracle for Python `eval(expr, {}, ctx)`: the engine treats expression
evaluation as an external capability that may fail. -/
abbrev EvalFn := String → Ctx → Except PyErr Val

/-- `def _eval(expr, ctx=None): return eval(expr, {}, ctx or {})`
(engine.py line 16).  Call sites that pass no context supply `[]`. -/
def _eval (ev : EvalFn) (expr : String) (ctx : Ctx) : Except PyErr Val :=
  ev expr ctx

/-- Oracle for `await self.engine.get_data(dep)`: returns the dependency's
value (`Val.none` for a missing task) or raises. -/
abbrev DepFn := String → Except PyErr Val

/-- Oracle for `await asyncio.to_thread(runAction, path, exchange, ctx)`:
may raise into the caller. -/
abbrev ActFn := String → Ctx → Except PyErr Unit

/-- Oracle for the bound ccxt function, applied to evaluated positional
and keyword arguments. -/
abbrev PyFun := List Val → List (String × Val) → Except PyErr Val

/-- The task-definition fields of `TaskConfig` (config.py) that the
execution core reads.  `interval: Optional[int] = None` carries no
positivity constraint in the pydantic model. -/
structure TaskConfig where
  name : String
  exchange : Option String
  function : Option String
  args : List Val
  kwargs : List (String × Val)
  dependencies : List String
  interval : Option Int
  return_expr : Option String
  condition : Option String
  log : Option String
  action : Option String

/-- Python `x or dflt` on an optional string: `None` and `""` are falsy. -/
def py_or_str (v : Option String) (dflt : String) : String :=
  match v with
  | some s => if s = "" then dflt else s
  | Option.none => dflt

/-- `self._ttl = getattr(config, "interval", 0) or 5` (engine.py line 46):
Python `or` replaces a missing or zero interval by 5. -/
def ttl_of (interval : Option Int) : Int :=
  match interval with
  | some n => if n = 0 then 5 else n
  | Option.none => 5

/-- Mutable and bound state of one `TaskEngine` instance.  Field names
follow the source (`engine.py` lines 21–52); `function_obj` is the result
of the `init()` binding pass, supplied here directly. -/
structure TaskUnit where
  name : String
  function_obj : Option PyFun
  args : List Val
  kwargs : List (String × Val)
  dependencies : List String
  return_expr : Option String
  condition : String
  log : Option String
  script : Option String
  _is_executed : Bool
  _cache_value : Val
  _cache_time : Int
  _is_running : Bool
  _ttl : Int

/-- `TaskEngine.__init__` (engine.py lines 21–52): initial state built from
a `TaskConfig`, plus the function handle the separate `init()` pass would
bind (absent when binding fails — binding failures are logged, not
fatal). -/
def mk_task_unit (cfg : TaskConfig) (fobj : Option PyFun) : TaskUnit :=
  { name := cfg.name
    function_obj := fobj
    args := cfg.args
    kwargs := cfg.kwargs
    dependencies := cfg.dependencies
    return_expr := cfg.return_expr
    condition := py_or_str cfg.condition "True"
    log := cfg.log
    script := cfg.action
    _is_executed := false
    _cache_value := Val.none
    _cache_time := 0
    _is_running := false
    _ttl := ttl_of cfg.interval }

/-- `TaskEngine.is_cache_valid` (engine.py lines 54–58). -/
def is_cache_valid (u : TaskUnit) (now : Int) : Bool :=
  if u._cache_value = Val.none then false
  else decide ((now - u._cache_time) < u._ttl)

/-- `TaskEngine._prepare_params` (engine.py lines 95–116): every string
entry is evaluated with `_eval(expr)` — i.e. against an empty context —
falling back to the literal string on failure; non-strings pass through. -/
def _prepare_params (ev : EvalFn) (u : TaskUnit) : List Val × List (String × Val) :=
  let args := u.args.map fun expr =>
    match expr with
    | Val.str s =>
      match _eval ev s [] with
      | Except.ok v => v
      | Except.error _ => Val.str s
    | x => x
  let kwargs := u.kwargs.map fun kv =>
    match kv.2 with
    | Val.str s =>
      match _eval ev s [] with
      | Except.ok v => (kv.1, v)
      | Except.error _ => kv
    | _ => kv
  (args, kwargs)

/-- Observable side effects of one execution pass: the
`saveTaskResult(name, result, time, …)` event (the "result produced"
event consumed by the storage sink), whether a log line was emitted, and
the dispatched action script path together with the dispatch outcome. -/
structure PassEffects where
  saved : Option (String × Val × Int)
  log_emitted : Bool
  action_dispatched : Option (String × Bool)
  deriving Repr, DecidableEq

/-- The effects of a pass that never reached any effectful statement. -/
def PassEffects.nil : PassEffects :=
  { saved := Option.none, log_emitted := false, action_dispatched := Option.none }

/-- Ghost instrumentation: the expression contexts materialised at each
stage of `_core_execute` — after line 140 (seed), after the dependency
loop (lines 143–144), after the raw-result binding (lines 156–157), and
after the final re-binding (lines 168–169). -/
structure CoreTrace where
  ctx_seed : Ctx
  ctx_deps : Option Ctx
  ctx_raw : Option Ctx
  ctx_final : Option Ctx
  deriving Repr, DecidableEq

/-- `context = {"last": self._cache_value}` (engine.py line 140). -/
def seed_context (u : TaskUnit) : Ctx :=
  [("last", u._cache_value)]

/-- The dependency loop (engine.py lines 143–144):
`for dep in self.dependencies: context[dep] = await self.engine.get_data(dep)`.
A dependency lookup that raises propagates out of the pass (the loop is
not wrapped in a `try`). -/
def load_dependencies (dep_data : DepFn) : List String → Ctx → Except PyErr Ctx
  | [], ctx => Except.ok ctx
  | d :: ds, ctx =>
    match dep_data d with
    | Except.error e => Except.error e
    | Except.ok v => load_dependencies dep_data ds (Ctx.set ctx d v)

/-- Lines 146–155: `result = None`; when a function is bound, call it on
the prepared parameters (sync/async is transparent here). -/
def call_function (ev : EvalFn) (u : TaskUnit) : Except PyErr Val :=
  match u.function_obj with
  | Option.none => Except.ok Val.none
  | some f =>
    let p := _prepare_params ev u
    f p.1 p.2

/-- `context[self.name] = r; context["this"] = r` (lines 156–157 and again
168–169). -/
def bind_self (u : TaskUnit) (ctx : Ctx) (r : Val) : Ctx :=
  Ctx.set (Ctx.set ctx u.name r) "this" r

/-- Lines 159–167 without the surrounding abort: evaluate `return_expr`
against the full context; when the value obtained is itself a `str`,
evaluate that string once more with `_eval(result)` — i.e. against an
empty context.  With no `return_expr` the raw result stands. -/
def return_transform (ev : EvalFn) (re : Option String) (ctx : Ctx) (raw : Val) :
    Except PyErr Val :=
  match re with
  | Option.none => Except.ok raw
  | some e =>
    match _eval ev e ctx with
    | Except.error err => Except.error err
    | Except.ok r1 =>
      match r1 with
      | Val.str s => _eval ev s []
      | r => Except.ok r

/-- A single ASCII apostrophe, used by the `repr` model below. -/
def squote : Char := Char.ofNat 39

/-- Approximation of Python `repr` on a string: single-quote wrapping with
backslash escaping of backslash and quote.  (CPython switches to double
quotes when the text holds a single quote and no double quote; no claim
depends on that refinement.) -/
def pyRepr (s : String) : String :=
  String.singleton squote
    ++ String.join (s.data.map fun c =>
        if c = '\\' then "\\\\"
        else if c = squote then "\\" ++ String.singleton squote
        else String.singleton c)
    ++ String.singleton squote

/-- Line 180 builds the expression `f{repr(self.log)}` and evaluates it
against the full context. -/
def log_expr_of (l : String) : String :=
  "f" ++ pyRepr l

/-- Python `str.strip()` whitespace test (ASCII whitespace; the unicode
cases never arise for script paths). -/
def py_isspace (c : Char) : Bool :=
  c = ' ' || c = '\t' || c = '\n' || c = '\r'

/-- Python `str.strip()`: drop leading and trailing whitespace. -/
def py_strip (s : String) : String :=
  ⟨((s.data.dropWhile py_isspace).reverse.dropWhile py_isspace).reverse⟩

/-- Python `str.lower()` on the ASCII range relevant to script paths. -/
def py_lower (s : String) : String :=
  ⟨s.data.map fun c =>
    if 65 ≤ c.toNat ∧ c.toNat ≤ 90 then Char.ofNat (c.toNat + 32) else c⟩

/-- Python `str.endswith(suffix)`. -/
def py_endswith (s suffix : String) : Bool :=
  suffix.data.isSuffixOf s.data

/-- Lines 183–189: `script.strip()`, append `.py` unless the lowercased
name already ends with it.  `pathlib` collapses the `Path(".") /` join of
a relative path, so the printable path is the suffixed string itself. -/
def script_to_path (script : String) : String :=
  let s := py_strip script
  if py_endswith (py_lower s) ".py" then s else s ++ ".py"

/-- Lines 171–197: the cache commit, the `saveTaskResult` event, and the
condition/log/action block.  `ctx` is the context after the final
re-binding; `result` the final result.  The whole condition block sits in
one `try` whose handler only logs, so a condition-evaluation or action
failure never travels further; the log line has its own inner `try`, so a
log failure falls through to the action dispatch.  The `"\n" + …`
concatenation raises (inside the inner `try`) when the evaluated template
is not a string. -/
def commit_and_condition (ev : EvalFn) (runAct : ActFn) (u : TaskUnit) (now : Int)
    (ctx : Ctx) (result : Val) : TaskUnit × PassEffects :=
  let u2 := { u with _cache_time := now, _cache_value := result }
  let saved := some (u.name, result, now)
  match _eval ev u.condition ctx with
  | Except.error _ =>
    (u2, { saved := saved, log_emitted := false, action_dispatched := Option.none })
  | Except.ok c =>
    if ¬ c.truthy then
      (u2, { saved := saved, log_emitted := false, action_dispatched := Option.none })
    else
      let logged :=
        match u.log with
        | Option.none => false
        | some l =>
          match _eval ev (log_expr_of l) ctx with
          | Except.ok (Val.str _) => true
          | _ => false
      match u.script with
      | Option.none =>
        (u2, { saved := saved, log_emitted := logged, action_dispatched := Option.none })
      | some sc =>
        let p := script_to_path sc
        let ok := match runAct p ctx with
          | Except.ok _ => true
          | Except.error _ => false
        (u2, { saved := saved, log_emitted := logged, action_dispatched := some (p, ok) })

/-- `TaskEngine._core_execute` (engine.py lines 137–197).  The `Except`
error is an exception escaping the pass (a raising dependency lookup or a
bound-function failure); a `return_expr` evaluation failure is caught in
place and aborts the pass with the unit unchanged and no effects.  The
`CoreTrace` component is ghost instrumentation recording the contexts. -/
def _core_execute (ev : EvalFn) (dep_data : DepFn) (runAct : ActFn)
    (u : TaskUnit) (now : Int) :
    Except PyErr (TaskUnit × PassEffects) × CoreTrace :=
  let ctx0 := seed_context u
  match load_dependencies dep_data u.dependencies ctx0 with
  | Except.error e =>
    (Except.error e,
     { ctx_seed := ctx0, ctx_deps := Option.none, ctx_raw := Option.none,
       ctx_final := Option.none })
  | Except.ok ctx1 =>
    match call_function ev u with
    | Except.error e =>
      (Except.error e,
       { ctx_seed := ctx0, ctx_deps := some ctx1, ctx_raw := Option.none,
         ctx_final := Option.none })
    | Except.ok raw =>
      let ctx2 := bind_self u ctx1 raw
      match return_transform ev u.return_expr ctx2 raw with
      | Except.error _ =>
        -- `logger.error(...); return` — abort without touching the cache
        (Except.ok (u, PassEffects.nil),
         { ctx_seed := ctx0, ctx_deps := some ctx1, ctx_raw := some ctx2,
           ctx_final := Option.none })
      | Except.ok result =>
        let ctx3 := bind_self u ctx2 result
        (Except.ok (commit_and_condition ev runAct u now ctx3 result),
         { ctx_seed := ctx0, ctx_deps := some ctx1, ctx_raw := some ctx2,
           ctx_final := some ctx3 })

/-- `TaskEngine._locked_execute` (engine.py lines 125–135): set
`_is_running`, run the core pass, catch only `ccxt.ExchangeNotAvailable`,
and in the `finally` block set `_is_executed` and clear `_is_running`
before re-raising anything else. -/
def _locked_execute (ev : EvalFn) (dep_data : DepFn) (runAct : ActFn)
    (u : TaskUnit) (now : Int) :
    Except PyErr Unit × TaskUnit × PassEffects :=
  let u1 := { u with _is_running := true }
  match _core_execute ev dep_data runAct u1 now with
  | (Except.ok (u2, eff), _) =>
    (Except.ok (), { u2 with _is_executed := true, _is_running := false }, eff)
  | (Except.error PyErr.exchangeNotAvailable, _) =>
    -- except ccxt.ExchangeNotAvailable: logger.error(...)
    (Except.ok (), { u1 with _is_executed := true, _is_running := false },
     PassEffects.nil)
  | (Except.error e, _) =>
    -- any other exception re-raises after the finally block runs
    (Except.error e, { u1 with _is_executed := true, _is_running := false },
     PassEffects.nil)

/-- Which branch `execute()` took. -/
inductive ExecPath where
  | skipped
  | ran
  deriving Repr, DecidableEq

/-- `TaskEngine.execute` (engine.py lines 118–123): skip entirely when
`_is_running` is already set, else take the lock and run a pass.  This is
the uncontended-lock (atomic) view; the interleaved view of two
concurrent callers is the `Sys` machine below. -/
def execute (ev : EvalFn) (dep_data : DepFn) (runAct : ActFn)
    (u : TaskUnit) (now : Int) :
    Except PyErr Unit × TaskUnit × PassEffects × ExecPath :=
  if u._is_running then
    (Except.ok (), u, PassEffects.nil, ExecPath.skipped)
  else
    let r := _locked_execute ev dep_data runAct u now
    (r.1, r.2.1, r.2.2, ExecPath.ran)

/-- Which branch `get_result()` took. -/
inductive GRPath where
  | fast
  | stale
  | locked_fresh
  | locked_exec
  deriving Repr, DecidableEq

/-- `TaskEngine.get_result` (engine.py lines 60–71).  `acq` is the
interleaving oracle: the unit state and clock observed once the lock has
been acquired (other coroutines may have run while this caller waited);
an uncontended acquisition is `acq = fun u now => (u, now)`. -/
def get_result (ev : EvalFn) (dep_data : DepFn) (runAct : ActFn)
    (u : TaskUnit) (now : Int) (acq : TaskUnit → Int → TaskUnit × Int) :
    Except PyErr Val × TaskUnit × PassEffects × GRPath :=
  if is_cache_valid u now then
    (Except.ok u._cache_value, u, PassEffects.nil, GRPath.fast)
  else if u._is_running && u._is_executed then
    (Except.ok u._cache_value, u, PassEffects.nil, GRPath.stale)
  else
    let a := acq u now
    if is_cache_valid a.1 a.2 then
      (Except.ok a.1._cache_value, a.1, PassEffects.nil, GRPath.locked_fresh)
    else
      match _locked_execute ev dep_data runAct a.1 a.2 with
      | (Except.ok _, u2, eff) =>
        (Except.ok u2._cache_value, u2, eff, GRPath.locked_exec)
      | (Except.error e, u2, eff) =>
        (Except.error e, u2, eff, GRPath.locked_exec)

/-!
Interleaved model of two concurrent `execute()` invocations on one
`TaskEngine` (engine.py lines 118–135) under asyncio's cooperative
scheduling.  A caller runs atomically between awaits; the await points
are the `async with self._lock` acquisition and the awaits inside the
pass body.  `PC.start` is the caller about to run the `if
self._is_running` check; `PC.wait` has passed the check and is queued on
the lock; `PC.inPass` holds the lock with `_is_running` set (the check
plus `_is_running = True` runs with no intervening await once the lock is
granted); `PC.done` has returned.  Leaving the pass (the `finally` block
plus the lock release) is likewise await-free, hence one atomic step. -/

/-- Program counter of one `execute()` caller. -/
inductive PC where
  | start
  | wait
  | inPass
  | done
  deriving Repr, DecidableEq

/-- Shared state of one task unit plus the two callers' positions.
`lock` holds the identity of the asyncio.Lock owner. -/
structure Sys where
  pc0 : PC
  pc1 : PC
  lock : Option Bool
  running : Bool
  executed : Bool
  deriving Repr, DecidableEq

/-- Both callers poised to invoke `execute()` on a quiescent unit whose
`_is_executed` history is `b`. -/
def Sys.init (b : Bool) : Sys :=
  { pc0 := PC.start, pc1 := PC.start, lock := Option.none,
    running := false, executed := b }

/-- Program counter of caller `i`. -/
def Sys.pcOf (s : Sys) (i : Bool) : PC :=
  if i then s.pc1 else s.pc0

/-- Replace caller `i`'s program counter. -/
def Sys.withPc (s : Sys) (i : Bool) (p : PC) : Sys :=
  if i then { s with pc1 := p } else { s with pc0 := p }

/-- One atomic step of caller `i`; `Option.none` when the caller is blocked
(waiting on a held lock) or finished. -/
def exec_step (i : Bool) (s : Sys) : Option Sys :=
  match s.pcOf i with
  | PC.start =>
    -- `if self._is_running: return` else fall through to the lock
    some (s.withPc i (if s.running then PC.done else PC.wait))
  | PC.wait =>
    match s.lock with
    | Option.none =>
      -- acquisition granted; `_locked_execute` immediately sets `_is_running`
      some { s.withPc i PC.inPass with lock := some i, running := true }
    | some _ => Option.none
  | PC.inPass =>
    -- the pass completes: finally block and lock release
    some { s.withPc i PC.done with
           lock := Option.none
           running := false
           executed := true }
  | PC.done => Option.none

/-- Interleaved reachability from a configuration. -/
inductive Reach : Sys → Sys → Prop where
  | refl (s : Sys) : Reach s s
  | step (i : Bool) (s t u : Sys) : Reach s t → exec_step i t = some u → Reach s u

/-- Inductive invariant: a caller is inside the pass exactly when it holds
the lock. -/
def InvB (s : Sys) : Bool :=
  ((!(s.pc0 == PC.inPass)) || (s.lock == some false)) &&
  ((!(s.pc1 == PC.inPass)) || (s.lock == some true))

/-- Bool-level step preservation: from an invariant state, any enabled
step lands in an invariant state. -/
def step_preserves (i : Bool) (s : Sys) : Bool :=
  match exec_step i s with
  | some u => InvB u
  | Option.none => true

theorem invB_step (i : Bool) (s : Sys) (h : InvB s = true) :
    step_preserves i s = true := by
  obtain ⟨p0, p1, l, r, e⟩ := s
  revert h
  cases i <;> cases p0 <;> cases p1 <;> rcases l with _ | (_ | _) <;>
    cases r <;> cases e <;> decide

theorem invB_init (b : Bool) : InvB (Sys.init b) = true := by
  cases b <;> decide

theorem reach_invB (s0 s : Sys) (h : Reach s0 s) :
    InvB s0 = true → InvB s = true := by
  induction h with
  | refl _ => exact fun h0 => h0
  | step i s1 t u _ hstep ih =>
    intro h0
    have hp := invB_step i t (ih h0)
    unfold step_preserves at hp
    rw [hstep] at hp
    exact hp

theorem Ctx.get_set_self (c : Ctx) (k : String) (v : Val) :
    Ctx.get (Ctx.set c k v) k = some v := by
  induction c with
  | nil => simp [Ctx.set, Ctx.get]
  | cons kv rest ih =>
    by_cases h : kv.1 = k
    · simp [Ctx.set, Ctx.get, h]
    · simpa [Ctx.set, Ctx.get, h] using ih

theorem Ctx.get_set_ne (c : Ctx) (k k2 : String) (v : Val) (h : k ≠ k2) :
    Ctx.get (Ctx.set c k v) k2 = Ctx.get c k2 := by
  induction c with
  | nil => simp [Ctx.set, Ctx.get, h]
  | cons kv rest ih =>
    by_cases h0 : kv.1 = k
    · simp [Ctx.set, Ctx.get, h0, h]
    · simp [Ctx.set, Ctx.get, h0, ih]

/-- A minimal quiescent unit used to build concrete witness inputs. -/
def sampleUnit : TaskUnit :=
  { name := "t"
    function_obj := Option.none
    args := []
    kwargs := []
    dependencies := []
    return_expr := Option.none
    condition := "True"
    log := Option.none
    script := Option.none
    _is_executed := false
    _cache_value := Val.none
    _cache_time := 0
    _is_running := false
    _ttl := 5 }

/-- Dependency oracle where every lookup yields `None`. -/
def depNone : DepFn := fun _ => Except.ok Val.none

/-- Action oracle that always succeeds. -/
def actOk : ActFn := fun _ _ => Except.ok ()

/-- Eval oracle where every expression raises a NameError. -/
def evFail : EvalFn := fun _ _ => Except.error (PyErr.other "NameError")

/-- Eval oracle recognising a few fixed expressions. -/
def evSample : EvalFn := fun e _ =>
  if e = "True" then Except.ok (Val.bool true)
  else if e = "1+1" then Except.ok (Val.int 2)
  else Except.error (PyErr.other "NameError")

/-- C1: `get_result` serves a valid cache immediately off the fast path
with no lock acquisition and no pass; with an invalid cache but a running
execution and a completed history it serves the possibly stale cache
without blocking; otherwise it acquires the lock, re-checks validity on
the post-acquisition state, serves a value refreshed by another waiter,
and only when still invalid runs a full pass under the lock and returns
the resulting cached value. -/
theorem claim_C1_get_result_paths (ev : EvalFn) (dep_data : DepFn) (runAct : ActFn)
    (u : TaskUnit) (now : Int) (acq : TaskUnit → Int → TaskUnit × Int) :
    (is_cache_valid u now = true →
      get_result ev dep_data runAct u now acq =
        (Except.ok u._cache_value, u, PassEffects.nil, GRPath.fast)) ∧
    (is_cache_valid u now = false → u._is_running = true → u._is_executed = true →
      get_result ev dep_data runAct u now acq =
        (Except.ok u._cache_value, u, PassEffects.nil, GRPath.stale)) ∧
    (is_cache_valid u now = false → (u._is_running && u._is_executed) = false →
      is_cache_valid (acq u now).1 (acq u now).2 = true →
      get_result ev dep_data runAct u now acq =
        (Except.ok (acq u now).1._cache_value, (acq u now).1, PassEffects.nil,
         GRPath.locked_fresh)) ∧
    (is_cache_valid u now = false → (u._is_running && u._is_executed) = false →
      is_cache_valid (acq u now).1 (acq u now).2 = false →
      get_result ev dep_data runAct u now acq =
        ((match (_locked_execute ev dep_data runAct (acq u now).1 (acq u now).2).1 with
          | Except.ok _ =>
            Except.ok (_locked_execute ev dep_data runAct (acq u now).1 (acq u now).2).2.1._cache_value
          | Except.error e => Except.error e),
         (_locked_execute ev dep_data runAct (acq u now).1 (acq u now).2).2.1,
         (_locked_execute ev dep_data runAct (acq u now).1 (acq u now).2).2.2,
         GRPath.locked_exec)) := by
  refine ⟨?_, ?_, ?_, ?_⟩
  · intro h1
    simp [get_result, h1]
  · intro h1 h2 h3
    simp [get_result, h1, h2, h3]
  · intro h1 h2 h3
    simp [get_result, h1, h2, h3]
  · intro h1 h2 h3
    rcases hL : _locked_execute ev dep_data runAct (acq u now).1 (acq u now).2 with
      ⟨r, u2, eff⟩
    cases r <;> simp [get_result, h1, h2, h3, hL]

/-- Closed instantiations of every branch of `claim_C1_get_result_paths`. -/
theorem claim_C1_witness :
    (get_result evFail depNone actOk
        { sampleUnit with _cache_value := Val.int 7 } 1 (fun v n => (v, n)) =
      (Except.ok (Val.int 7), { sampleUnit with _cache_value := Val.int 7 },
       PassEffects.nil, GRPath.fast)) ∧
    (get_result evFail depNone actOk
        { sampleUnit with _is_running := true, _is_executed := true } 1
        (fun v n => (v, n)) =
      (Except.ok Val.none, { sampleUnit with _is_running := true, _is_executed := true },
       PassEffects.nil, GRPath.stale)) ∧
    (get_result evFail depNone actOk sampleUnit 1
        (fun _ _ => ({ sampleUnit with _cache_value := Val.int 9 }, 2)) =
      (Except.ok (Val.int 9), { sampleUnit with _cache_value := Val.int 9 },
       PassEffects.nil, GRPath.locked_fresh)) ∧
    (get_result evFail depNone actOk sampleUnit 1 (fun v n => (v, n)) =
      ((match (_locked_execute evFail depNone actOk sampleUnit 1).1 with
        | Except.ok _ =>
          Except.ok (_locked_execute evFail depNone actOk sampleUnit 1).2.1._cache_value
        | Except.error e => Except.error e),
       (_locked_execute evFail depNone actOk sampleUnit 1).2.1,
       (_locked_execute evFail depNone actOk sampleUnit 1).2.2,
       GRPath.locked_exec)) := by
  refine ⟨?_, ?_, ?_, ?_⟩
  · exact (claim_C1_get_result_paths evFail depNone actOk
      { sampleUnit with _cache_value := Val.int 7 } 1 (fun v n => (v, n))).1
      (by decide)
  · exact (claim_C1_get_result_paths evFail depNone actOk
      { sampleUnit with _is_running := true, _is_executed := true } 1
      (fun v n => (v, n))).2.1 (by decide) (by decide) (by decide)
  · exact (claim_C1_get_result_paths evFail depNone actOk sampleUnit 1
      (fun _ _ => ({ sampleUnit with _cache_value := Val.int 9 }, 2))).2.2.1
      (by decide) (by decide) (by decide)
  · exact (claim_C1_get_result_paths evFail depNone actOk sampleUnit 1
      (fun v n => (v, n))).2.2.2 (by decide) (by decide) (by decide)

/-- C2 counterexample: on a unit whose `_is_running` flag is set,
`execute()` returns at the `if self._is_running` guard — no pass runs, no
cache commit, no result event — refuting "execute() always performs a
fresh computation pass … regardless of … whether another execution is in
flight". -/
theorem claim_C2_counterexample :
    execute evFail depNone actOk { sampleUnit with _is_running := true } 0 =
      (Except.ok (), { sampleUnit with _is_running := true }, PassEffects.nil,
       ExecPath.skipped) := by
  rfl

/-- C2 amended: when no execution is in flight, `execute()` performs a
fresh pass under the lock without consulting cache validity (in
particular it re-runs even on a perfectly valid cache); when an execution
is already in flight it returns immediately, performing no pass at
all. -/
theorem claim_C2_execute_always_fresh (ev : EvalFn) (dep_data : DepFn)
    (runAct : ActFn) (u : TaskUnit) (now : Int) :
    (u._is_running = false →
      execute ev dep_data runAct u now =
        ((_locked_execute ev dep_data runAct u now).1,
         (_locked_execute ev dep_data runAct u now).2.1,
         (_locked_execute ev dep_data runAct u now).2.2, ExecPath.ran)) ∧
    (u._is_running = false → is_cache_valid u now = true →
      (execute ev dep_data runAct u now).2.2.2 = ExecPath.ran) ∧
    (u._is_running = true →
      execute ev dep_data runAct u now =
        (Except.ok (), u, PassEffects.nil, ExecPath.skipped)) := by
  refine ⟨?_, ?_, ?_⟩
  · intro h1
    simp [execute, h1]
  · intro h1 _
    simp [execute, h1]
  · intro h1
    simp [execute, h1]

/-- Closed instantiations of every branch of
`claim_C2_execute_always_fresh`, the valid-cache one included. -/
theorem claim_C2_witness :
    (execute evFail depNone actOk { sampleUnit with _cache_value := Val.int 7 } 1 =
      ((_locked_execute evFail depNone actOk
          { sampleUnit with _cache_value := Val.int 7 } 1).1,
       (_locked_execute evFail depNone actOk
          { sampleUnit with _cache_value := Val.int 7 } 1).2.1,
       (_locked_execute evFail depNone actOk
          { sampleUnit with _cache_value := Val.int 7 } 1).2.2, ExecPath.ran)) ∧
    ((execute evFail depNone actOk
        { sampleUnit with _cache_value := Val.int 7 } 1).2.2.2 = ExecPath.ran) ∧
    (execute evFail depNone actOk { sampleUnit with _is_running := true, _ttl := 9 } 0 =
      (Except.ok (), { sampleUnit with _is_running := true, _ttl := 9 },
       PassEffects.nil, ExecPath.skipped)) := by
  refine ⟨?_, ?_, ?_⟩
  · exact (claim_C2_execute_always_fresh evFail depNone actOk
      { sampleUnit with _cache_value := Val.int 7 } 1).1 (by decide)
  · exact (claim_C2_execute_always_fresh evFail depNone actOk
      { sampleUnit with _cache_value := Val.int 7 } 1).2.1 (by decide) (by decide)
  · exact (claim_C2_execute_always_fresh evFail depNone actOk
      { sampleUnit with _is_running := true, _ttl := 9 } 0).2.2 (by decide)

/-- C3: when a `return_expr` is configured and its evaluation against the
full context raises, the pass aborts in place: the returned unit is
exactly the pre-pass unit (cachedValue and cachedAt untouched) and no
effects — in particular no `saveTaskResult` event — are produced. -/
theorem claim_C3_return_expr_abort (ev : EvalFn) (dep_data : DepFn)
    (runAct : ActFn) (u : TaskUnit) (now : Int) (re : String) (ctx1 : Ctx)
    (raw : Val) (err : PyErr)
    (hre : u.return_expr = some re)
    (hdeps : load_dependencies dep_data u.dependencies (seed_context u) =
      Except.ok ctx1)
    (hcall : call_function ev u = Except.ok raw)
    (heval : _eval ev re (bind_self u ctx1 raw) = Except.error err) :
    (_core_execute ev dep_data runAct u now).1 =
      Except.ok (u, PassEffects.nil) := by
  simp [_core_execute, hdeps, hcall, return_transform, hre, heval]

/-- A unit with a failing return expression and a warm cache. -/
def u_c3 : TaskUnit :=
  { sampleUnit with
    return_expr := some "bad"
    _cache_value := Val.int 41 }

/-- Closed instantiation of `claim_C3_return_expr_abort`: a unit with a
failing return expression and a previously cached `41` keeps its state
bit-for-bit and emits nothing. -/
theorem claim_C3_witness :
    (_core_execute evFail depNone actOk u_c3 9).1 =
      Except.ok (u_c3, PassEffects.nil) := by
  exact claim_C3_return_expr_abort evFail depNone actOk u_c3
    9 "bad" [("last", Val.int 41)] Val.none (PyErr.other "NameError")
    rfl rfl rfl rfl

/-- C4: every string entry of `args`/`kwargs` is evaluated against the
empty context with the literal string as fallback on failure, non-string
entries pass through unchanged, no single failure aborts the call
(`_prepare_params` is total and entry-wise), and the outcome depends on
the evaluation oracle only through its behaviour on the empty context. -/
theorem claim_C4_arg_evaluation (ev : EvalFn) (u : TaskUnit) :
    ((_prepare_params ev u).1 =
      u.args.map fun a =>
        match a with
        | Val.str s =>
          match ev s [] with
          | Except.ok v => v
          | Except.error _ => Val.str s
        | x => x) ∧
    ((_prepare_params ev u).2 =
      u.kwargs.map fun kv =>
        match kv.2 with
        | Val.str s =>
          match ev s [] with
          | Except.ok v => (kv.1, v)
          | Except.error _ => kv
        | _ => kv) ∧
    (∀ ev2 : EvalFn, (∀ s, ev s [] = ev2 s []) →
      _prepare_params ev u = _prepare_params ev2 u) := by
  refine ⟨rfl, rfl, ?_⟩
  intro ev2 hagree
  unfold _prepare_params _eval
  have h1 : ∀ l : List Val,
      (l.map fun expr =>
        match expr with
        | Val.str s =>
          match ev s [] with
          | Except.ok v => v
          | Except.error _ => Val.str s
        | x => x) =
      (l.map fun expr =>
        match expr with
        | Val.str s =>
          match ev2 s [] with
          | Except.ok v => v
          | Except.error _ => Val.str s
        | x => x) := by
    intro l
    refine List.map_congr_left ?_
    intro a _
    cases a <;> simp [hagree]
  have h2 : ∀ l : List (String × Val),
      (l.map fun kv =>
        match kv.2 with
        | Val.str s =>
          match ev s [] with
          | Except.ok v => (kv.1, v)
          | Except.error _ => kv
        | _ => kv) =
      (l.map fun kv =>
        match kv.2 with
        | Val.str s =>
          match ev2 s [] with
          | Except.ok v => (kv.1, v)
          | Except.error _ => kv
        | _ => kv) := by
    intro l
    refine List.map_congr_left ?_
    intro kv _
    rcases kv with ⟨k, v⟩
    cases v <;> simp [hagree]
  rw [h1 u.args, h2 u.kwargs]

/-- A unit mixing an evaluable argument expression, a literal, and a
failing argument expression. -/
def u_c4 : TaskUnit :=
  { sampleUnit with
    args := [Val.str "1+1", Val.int 3, Val.str "nope"]
    kwargs := [("k", Val.str "nope")] }

/-- Closed instantiation of `claim_C4_arg_evaluation` on a unit mixing a
successfully evaluated expression, a non-string literal, and a failing
expression falling back to its literal text. -/
theorem claim_C4_witness :
    ((_prepare_params evSample u_c4).1 = [Val.int 2, Val.int 3, Val.str "nope"]) ∧
    ((_prepare_params evSample u_c4).2 = [("k", Val.str "nope")]) ∧
    (_prepare_params evSample u_c4 =
      _prepare_params (fun e _ => evSample e []) u_c4) := by
  refine ⟨?_, ?_, ?_⟩
  · rw [(claim_C4_arg_evaluation evSample u_c4).1]
    rfl
  · rw [(claim_C4_arg_evaluation evSample u_c4).2.1]
    rfl
  · exact (claim_C4_arg_evaluation evSample u_c4).2.2
      (fun e _ => evSample e []) (fun _ => rfl)

/-- C5 amended, first half proved over the interleaved two-caller machine:
in every configuration reachable from two concurrent `execute()` callers
on a quiescent unit, at most one caller is inside the pass (holds the
lock with `_is_running` set).  Second half: a caller that observes the
running flag at its entry guard steps directly to `done` — it performs no
pass and returns no value, whatever the `_is_executed` history. -/
theorem claim_C5_mutual_exclusion :
    (∀ (b : Bool) (s : Sys), Reach (Sys.init b) s →
      ¬ (s.pc0 = PC.inPass ∧ s.pc1 = PC.inPass)) ∧
    (∀ s : Sys, Sys.pcOf s true = PC.start → s.running = true →
      exec_step true s = some (Sys.withPc s true PC.done)) := by
  constructor
  · intro b s h hc
    rcases hc with ⟨h0, h1⟩
    have hi := reach_invB (Sys.init b) s h (invB_init b)
    unfold InvB at hi
    rw [h0, h1] at hi
    rcases hl : s.lock with _ | lb
    · rw [hl] at hi
      simp at hi
    · rw [hl] at hi
      cases lb <;> simp_all
  · intro s hpc hrun
    unfold exec_step
    rw [hpc, hrun]
    simp

/-- Closed instantiations of both halves of
`claim_C5_mutual_exclusion`. -/
theorem claim_C5_witness :
    (¬ ((Sys.init true).pc0 = PC.inPass ∧ (Sys.init true).pc1 = PC.inPass)) ∧
    (exec_step true
        { pc0 := PC.inPass, pc1 := PC.start, lock := some false,
          running := true, executed := false } =
      some (Sys.withPc
        { pc0 := PC.inPass, pc1 := PC.start, lock := some false,
          running := true, executed := false } true PC.done)) := by
  constructor
  · exact claim_C5_mutual_exclusion.1 true (Sys.init true) (Reach.refl _)
  · exact claim_C5_mutual_exclusion.2
      { pc0 := PC.inPass, pc1 := PC.start, lock := some false,
        running := true, executed := false } rfl rfl

/-- C5 counterexample: from two concurrent `execute()` callers on a unit
that has never completed a pass (`executed = false` throughout), the
schedule "caller 0 passes the guard, caller 0 acquires the lock and
enters the pass, caller 1 runs its guard" is reachable and leaves caller
1 `done` — returned immediately, without waiting and without any value —
while caller 0 is still mid-pass and no execution has ever completed.
The claim required the second caller to wait in this situation (it allows
a non-blocking return only once a first pass has completed). -/
theorem claim_C5_counterexample :
    Reach (Sys.init false)
      { pc0 := PC.inPass, pc1 := PC.done, lock := some false,
        running := true, executed := false } ∧
    ({ pc0 := PC.inPass, pc1 := PC.done, lock := some false,
       running := true, executed := false : Sys }).executed = false := by
  constructor
  · refine Reach.step true _
      { pc0 := PC.inPass, pc1 := PC.start, lock := some false,
        running := true, executed := false } _ ?_ (by rfl)
    refine Reach.step false _
      { pc0 := PC.wait, pc1 := PC.start, lock := Option.none,
        running := false, executed := false } _ ?_ (by rfl)
    exact Reach.step false _ (Sys.init false) _ (Reach.refl _) (by rfl)
  · rfl

/-- A task configuration whose interval is the integer zero. -/
def cfg_interval_zero : TaskConfig :=
  { name := "z"
    exchange := Option.none
    function := Option.none
    args := []
    kwargs := []
    dependencies := []
    interval := some 0
    return_expr := Option.none
    condition := Option.none
    log := Option.none
    action := Option.none }

/-- C6 counterexample: `interval: 0` passes the pydantic model
(`Optional[int]`, unconstrained), so an interval IS configured, yet
`self._ttl = getattr(config, "interval", 0) or 5` maps the falsy zero to
the default 5 — the effective TTL does not equal the configured
interval. -/
theorem claim_C6_counterexample :
    cfg_interval_zero.interval = some 0 ∧
    (mk_task_unit cfg_interval_zero Option.none)._ttl = 5 ∧
    ¬ ((mk_task_unit cfg_interval_zero Option.none)._ttl = 0) := by
  refine ⟨rfl, rfl, by decide⟩

/-- C6 amended: the cache is valid iff `cachedValue` is present and `now -
cachedAt < ttl` strictly (an absent value is invalid regardless of age),
and the effective TTL equals the configured interval whenever that
interval is nonzero, and equals the fixed default 5 when the interval is
absent or zero. -/
theorem claim_C6_cache_validity (cfg : TaskConfig) (f : Option PyFun)
    (u : TaskUnit) (now : Int) :
    (is_cache_valid u now = true ↔
      (¬ (u._cache_value = Val.none) ∧ now - u._cache_time < u._ttl)) ∧
    (u._cache_value = Val.none → is_cache_valid u now = false) ∧
    (∀ n : Int, cfg.interval = some n → ¬ (n = 0) →
      (mk_task_unit cfg f)._ttl = n) ∧
    ((cfg.interval = Option.none ∨ cfg.interval = some 0) →
      (mk_task_unit cfg f)._ttl = 5) := by
  refine ⟨?_, ?_, ?_, ?_⟩
  · unfold is_cache_valid
    by_cases h : u._cache_value = Val.none <;> simp [h]
  · intro h
    simp [is_cache_valid, h]
  · intro n hn hnz
    simp [mk_task_unit, ttl_of, hn, hnz]
  · intro h
    rcases h with h | h <;> simp [mk_task_unit, ttl_of, h]

/-- Closed instantiations of every part of `claim_C6_cache_validity`. -/
theorem claim_C6_witness :
    (is_cache_valid { sampleUnit with _cache_value := Val.int 1 } 3 = true ↔
      (¬ (({ sampleUnit with _cache_value := Val.int 1 } : TaskUnit)._cache_value
            = Val.none) ∧
       (3 : Int) - ({ sampleUnit with _cache_value := Val.int 1 } :
            TaskUnit)._cache_time <
         ({ sampleUnit with _cache_value := Val.int 1 } : TaskUnit)._ttl)) ∧
    (is_cache_valid sampleUnit 0 = false) ∧
    ((mk_task_unit { cfg_interval_zero with interval := some 7 } Option.none)._ttl
      = 7) ∧
    ((mk_task_unit cfg_interval_zero Option.none)._ttl = 5) := by
  refine ⟨?_, ?_, ?_, ?_⟩
  · exact (claim_C6_cache_validity cfg_interval_zero Option.none
      { sampleUnit with _cache_value := Val.int 1 } 3).1
  · exact (claim_C6_cache_validity cfg_interval_zero Option.none
      sampleUnit 0).2.1 rfl
  · exact (claim_C6_cache_validity { cfg_interval_zero with interval := some 7 }
      Option.none sampleUnit 0).2.2.1 7 rfl (by decide)
  · exact (claim_C6_cache_validity cfg_interval_zero Option.none
      sampleUnit 0).2.2.2 (Or.inr rfl)

/-- Eval oracle where `True` is true and everything else raises. -/
def ev_c7 : EvalFn := fun e _ =>
  if e = "True" then Except.ok (Val.bool true)
  else Except.error (PyErr.other "boom")

/-- A bound function constantly returning `1`. -/
def fn_one : PyFun := fun _ _ => Except.ok (Val.int 1)

/-- A unit with a satisfied condition, a log template whose rendering
fails, and a configured action script. -/
def u_c7 : TaskUnit :=
  { sampleUnit with
    log := some "L"
    script := some "act"
    function_obj := some fn_one }

/-- C7 counterexample: with the condition satisfied, a failing log
rendering is caught by the inner handler and the pass falls through to
the action dispatch — the action IS dispatched (to `act.py`, here
successfully) even though the log evaluation failed, refuting "a
condition or log evaluation failure is treated as condition-not-satisfied
(no log emission, no action dispatch)".  The committed cache stands, as
claimed. -/
theorem claim_C7_counterexample :
    ((_core_execute ev_c7 depNone actOk u_c7 5).1 =
      Except.ok ({ u_c7 with _cache_time := 5, _cache_value := Val.int 1 },
        { saved := some ("t", Val.int 1, 5)
          log_emitted := false
          action_dispatched := some ("act.py", true) })) ∧
    (_eval ev_c7 (log_expr_of "L")
        [("last", Val.none), ("t", Val.int 1), ("this", Val.int 1)] =
      Except.error (PyErr.other "boom")) := by
  constructor <;> rfl

/-- C7 amended: the cache commit and the result event precede and are
independent of the condition block — they stand whatever the condition,
log or action does.  A condition-evaluation failure suppresses both the
log and the action.  A log-evaluation failure with a satisfied condition
suppresses only the log line: the action is still dispatched.  On a pass
whose return transform succeeds, `_core_execute` commits through exactly
this block. -/
theorem claim_C7_commit_before_condition (ev : EvalFn) (dep_data : DepFn)
    (runAct : ActFn) (u : TaskUnit) (now : Int) (ctx : Ctx) (result : Val) :
    ((commit_and_condition ev runAct u now ctx result).1 =
      { u with _cache_time := now, _cache_value := result }) ∧
    ((commit_and_condition ev runAct u now ctx result).2.saved =
      some (u.name, result, now)) ∧
    (∀ e, _eval ev u.condition ctx = Except.error e →
      (commit_and_condition ev runAct u now ctx result).2.log_emitted = false ∧
      (commit_and_condition ev runAct u now ctx result).2.action_dispatched =
        Option.none) ∧
    (∀ c l sc, _eval ev u.condition ctx = Except.ok c → c.truthy = true →
      u.log = some l →
      (∀ v, ¬ (_eval ev (log_expr_of l) ctx = Except.ok (Val.str v))) →
      u.script = some sc →
      (commit_and_condition ev runAct u now ctx result).2.log_emitted = false ∧
      (∃ ok, (commit_and_condition ev runAct u now ctx result).2.action_dispatched =
        some (script_to_path sc, ok))) ∧
    (∀ (ctx1 : Ctx) (raw res : Val),
      load_dependencies dep_data u.dependencies (seed_context u) = Except.ok ctx1 →
      call_function ev u = Except.ok raw →
      return_transform ev u.return_expr (bind_self u ctx1 raw) raw =
        Except.ok res →
      (_core_execute ev dep_data runAct u now).1 =
        Except.ok (commit_and_condition ev runAct u now
          (bind_self u (bind_self u ctx1 raw) res) res)) := by
  refine ⟨?_, ?_, ?_, ?_, ?_⟩
  · rcases hcond : _eval ev u.condition ctx with e | c
    · simp [commit_and_condition, hcond]
    · rcases hl : u.log with _ | l <;> rcases hs : u.script with _ | sc <;>
        by_cases ht : c.truthy <;>
        simp [commit_and_condition, hcond, hl, hs, ht]
  · rcases hcond : _eval ev u.condition ctx with e | c
    · simp [commit_and_condition, hcond]
    · rcases hl : u.log with _ | l <;> rcases hs : u.script with _ | sc <;>
        by_cases ht : c.truthy <;>
        simp [commit_and_condition, hcond, hl, hs, ht]
  · intro e hcond
    simp [commit_and_condition, hcond]
  · intro c l sc hcond ht hl hnostr hs
    have hred : commit_and_condition ev runAct u now ctx result =
        ({ u with _cache_time := now, _cache_value := result },
         { saved := some (u.name, result, now)
           log_emitted := false
           action_dispatched := some (script_to_path sc,
             match runAct (script_to_path sc) ctx with
             | Except.ok _ => true
             | Except.error _ => false) }) := by
      rcases hlog : _eval ev (log_expr_of l) ctx with er | lv
      · simp [commit_and_condition, hcond, ht, hl, hs, hlog]
      · cases lv with
        | str s => exact absurd hlog (hnostr s)
        | none => simp [commit_and_condition, hcond, ht, hl, hs, hlog]
        | bool b => simp [commit_and_condition, hcond, ht, hl, hs, hlog]
        | int n => simp [commit_and_condition, hcond, ht, hl, hs, hlog]
    rw [hred]
    exact ⟨rfl, ⟨_, rfl⟩⟩
  · intro ctx1 raw res hdeps hcall htr
    simp [_core_execute, hdeps, hcall, htr]

/-- The full context of the `u_c7` pass, as the condition block sees it. -/
def ctx_c7 : Ctx := [("last", Val.none), ("t", Val.int 1), ("this", Val.int 1)]

/-- Closed instantiations of every part of
`claim_C7_commit_before_condition`. -/
theorem claim_C7_witness :
    ((commit_and_condition ev_c7 actOk u_c7 5 ctx_c7 (Val.int 1)).1 =
      { u_c7 with _cache_time := 5, _cache_value := Val.int 1 }) ∧
    ((commit_and_condition ev_c7 actOk u_c7 5 ctx_c7 (Val.int 1)).2.saved =
      some ("t", Val.int 1, 5)) ∧
    ((commit_and_condition evFail actOk sampleUnit 0 [] Val.none).2.log_emitted =
        false ∧
      (commit_and_condition evFail actOk sampleUnit 0 [] Val.none).2.action_dispatched =
        Option.none) ∧
    ((commit_and_condition ev_c7 actOk u_c7 5 ctx_c7 (Val.int 1)).2.log_emitted =
        false ∧
      (∃ ok, (commit_and_condition ev_c7 actOk u_c7 5 ctx_c7
          (Val.int 1)).2.action_dispatched = some (script_to_path "act", ok))) ∧
    ((_core_execute evFail depNone actOk sampleUnit 0).1 =
      Except.ok (commit_and_condition evFail actOk sampleUnit 0
        (bind_self sampleUnit
          (bind_self sampleUnit (seed_context sampleUnit) Val.none) Val.none)
        Val.none)) := by
  refine ⟨?_, ?_, ?_, ?_, ?_⟩
  · exact (claim_C7_commit_before_condition ev_c7 depNone actOk u_c7 5 ctx_c7
      (Val.int 1)).1
  · exact (claim_C7_commit_before_condition ev_c7 depNone actOk u_c7 5 ctx_c7
      (Val.int 1)).2.1
  · exact (claim_C7_commit_before_condition evFail depNone actOk sampleUnit 0 []
      Val.none).2.2.1 (PyErr.other "NameError") rfl
  · exact (claim_C7_commit_before_condition ev_c7 depNone actOk u_c7 5 ctx_c7
      (Val.int 1)).2.2.2.1 (Val.bool true) "L" "act" rfl rfl rfl
      (fun v h => Except.noConfusion h) rfl
  · exact (claim_C7_commit_before_condition evFail depNone actOk sampleUnit 0 []
      Val.none).2.2.2.2 (seed_context sampleUnit) Val.none Val.none rfl rfl rfl

/-- A bound function raising a generic (non-ccxt-ExchangeNotAvailable)
exception. -/
def fn_boom : PyFun := fun _ _ => Except.error (PyErr.other "boom")

/-- A bound function raising `ccxt.ExchangeNotAvailable`. -/
def fn_ena : PyFun := fun _ _ => Except.error PyErr.exchangeNotAvailable

/-- A warm-cached unit whose bound function raises a generic exception. -/
def u_c8 : TaskUnit :=
  { sampleUnit with
    function_obj := some fn_boom
    _cache_value := Val.int 41 }

/-- A warm-cached unit whose bound function raises
`ccxt.ExchangeNotAvailable`. -/
def u_c8e : TaskUnit :=
  { sampleUnit with
    function_obj := some fn_ena
    _cache_value := Val.int 41 }

/-- C8 counterexample: a bound-function failure other than
`ccxt.ExchangeNotAvailable` is not caught anywhere in the engine — it
escapes `_locked_execute` (and hence `execute()`/`get_result()`) to the
caller, unlogged by the engine, refuting "the failure does not escape the
pass".  The `finally` block does still run: the stale cache survives,
`_is_executed` is set and `_is_running` is cleared. -/
theorem claim_C8_counterexample :
    (_locked_execute evFail depNone actOk u_c8 9 =
      (Except.error (PyErr.other "boom"), { u_c8 with _is_executed := true },
       PassEffects.nil)) ∧
    ¬ ((_locked_execute evFail depNone actOk u_c8 9).1 = Except.ok ()) := by
  refine ⟨rfl, fun h => Except.noConfusion h⟩

/-- C8 amended: when the bound function call fails during a pass, the pass
aborts before the cache commit (stale `cachedValue`/`cachedAt` preserved
and still readable), `executedAtLeastOnce` is set and `running` is
cleared by the `finally` block; the failure is caught and logged — so it
does not escape the pass — exactly when it is
`ccxt.ExchangeNotAvailable`; any other exception propagates to the
caller. -/
theorem claim_C8_function_failure (ev : EvalFn) (dep_data : DepFn)
    (runAct : ActFn) (u : TaskUnit) (now : Int) (e : PyErr) (ctx1 : Ctx)
    (hdeps : load_dependencies dep_data u.dependencies (seed_context u) =
      Except.ok ctx1)
    (hcall : call_function ev u = Except.error e) :
    ((_locked_execute ev dep_data runAct u now).2.1._cache_value =
      u._cache_value) ∧
    ((_locked_execute ev dep_data runAct u now).2.1._cache_time =
      u._cache_time) ∧
    ((_locked_execute ev dep_data runAct u now).2.1._is_executed = true) ∧
    ((_locked_execute ev dep_data runAct u now).2.1._is_running = false) ∧
    ((_locked_execute ev dep_data runAct u now).2.2 = PassEffects.nil) ∧
    (e = PyErr.exchangeNotAvailable →
      (_locked_execute ev dep_data runAct u now).1 = Except.ok ()) ∧
    (¬ (e = PyErr.exchangeNotAvailable) →
      (_locked_execute ev dep_data runAct u now).1 = Except.error e) := by
  have hdeps1 : load_dependencies dep_data
      ({ u with _is_running := true } : TaskUnit).dependencies
      (seed_context { u with _is_running := true }) = Except.ok ctx1 := hdeps
  have hcall1 : call_function ev { u with _is_running := true } =
      Except.error e := hcall
  cases e with
  | exchangeNotAvailable =>
    refine ⟨?_, ?_, ?_, ?_, ?_, ?_, ?_⟩ <;>
      simp [_locked_execute, _core_execute, hdeps1, hcall1]
  | other msg =>
    refine ⟨?_, ?_, ?_, ?_, ?_, ?_, ?_⟩ <;>
      simp [_locked_execute, _core_execute, hdeps1, hcall1]

/-- Closed instantiations of `claim_C8_function_failure` for both a
generic failure (escaping) and an ExchangeNotAvailable failure
(caught). -/
theorem claim_C8_witness :
    ((_locked_execute evFail depNone actOk u_c8 9).2.1._cache_value =
      Val.int 41) ∧
    ((_locked_execute evFail depNone actOk u_c8 9).2.1._is_executed = true) ∧
    ((_locked_execute evFail depNone actOk u_c8 9).2.1._is_running = false) ∧
    ((_locked_execute evFail depNone actOk u_c8 9).2.2 = PassEffects.nil) ∧
    ((_locked_execute evFail depNone actOk u_c8 9).1 =
      Except.error (PyErr.other "boom")) ∧
    ((_locked_execute evFail depNone actOk u_c8e 9).1 = Except.ok ()) ∧
    ((_locked_execute evFail depNone actOk u_c8e 9).2.1._cache_value =
      Val.int 41) := by
  refine ⟨?_, ?_, ?_, ?_, ?_, ?_, ?_⟩
  · exact (claim_C8_function_failure evFail depNone actOk u_c8 9
      (PyErr.other "boom") [("last", Val.int 41)] rfl rfl).1
  · exact (claim_C8_function_failure evFail depNone actOk u_c8 9
      (PyErr.other "boom") [("last", Val.int 41)] rfl rfl).2.2.1
  · exact (claim_C8_function_failure evFail depNone actOk u_c8 9
      (PyErr.other "boom") [("last", Val.int 41)] rfl rfl).2.2.2.1
  · exact (claim_C8_function_failure evFail depNone actOk u_c8 9
      (PyErr.other "boom") [("last", Val.int 41)] rfl rfl).2.2.2.2.1
  · exact (claim_C8_function_failure evFail depNone actOk u_c8 9
      (PyErr.other "boom") [("last", Val.int 41)] rfl rfl).2.2.2.2.2.2
      (by decide)
  · exact (claim_C8_function_failure evFail depNone actOk u_c8e 9
      PyErr.exchangeNotAvailable [("last", Val.int 41)] rfl rfl).2.2.2.2.2.1
      rfl
  · exact (claim_C8_function_failure evFail depNone actOk u_c8e 9
      PyErr.exchangeNotAvailable [("last", Val.int 41)] rfl rfl).1

/-- C9 counterexample: the seeded context of a pass (engine.py line 140)
is exactly `{"last": cachedValue}` — the task's own name (`"t"` here) is
NOT a key of the seed, and in particular is not bound to null, refuting
"initially seeded with … the task's own name bound to null, before
dependencies are resolved".  (The own name is first bound only after the
bound function runs, line 156.) -/
theorem claim_C9_counterexample :
    ((_core_execute evFail depNone actOk sampleUnit 0).2.ctx_seed =
      [("last", Val.none)]) ∧
    (Ctx.get (_core_execute evFail depNone actOk sampleUnit 0).2.ctx_seed "t" =
      Option.none) ∧
    ¬ (Ctx.get (_core_execute evFail depNone actOk sampleUnit 0).2.ctx_seed "t" =
      some Val.none) := by
  refine ⟨rfl, rfl, fun h => Option.noConfusion h⟩

/-- C9 amended: the context is seeded with only `last` bound to the
previous cached value — the task's own name is absent from the seed (not
bound to null); after the bound function runs, the own name and the
`this` alias are bound to the raw result, and after the optional return
transform they are re-bound to the final result. -/
theorem claim_C9_context_bindings (ev : EvalFn) (dep_data : DepFn)
    (runAct : ActFn) (u : TaskUnit) (now : Int) :
    ((_core_execute ev dep_data runAct u now).2.ctx_seed =
      [("last", u._cache_value)]) ∧
    (¬ (u.name = "last") →
      Ctx.get (_core_execute ev dep_data runAct u now).2.ctx_seed u.name =
        Option.none) ∧
    (∀ (ctx1 : Ctx) (raw : Val),
      load_dependencies dep_data u.dependencies (seed_context u) =
        Except.ok ctx1 →
      call_function ev u = Except.ok raw →
      ((_core_execute ev dep_data runAct u now).2.ctx_raw =
        some (bind_self u ctx1 raw)) ∧
      (¬ (u.name = "this") →
        Ctx.get (bind_self u ctx1 raw) u.name = some raw) ∧
      (Ctx.get (bind_self u ctx1 raw) "this" = some raw)) ∧
    (∀ (ctx1 : Ctx) (raw res : Val),
      load_dependencies dep_data u.dependencies (seed_context u) =
        Except.ok ctx1 →
      call_function ev u = Except.ok raw →
      return_transform ev u.return_expr (bind_self u ctx1 raw) raw =
        Except.ok res →
      ((_core_execute ev dep_data runAct u now).2.ctx_final =
        some (bind_self u (bind_self u ctx1 raw) res)) ∧
      (¬ (u.name = "this") →
        Ctx.get (bind_self u (bind_self u ctx1 raw) res) u.name = some res) ∧
      (Ctx.get (bind_self u (bind_self u ctx1 raw) res) "this" = some res)) := by
  have hseed : (_core_execute ev dep_data runAct u now).2.ctx_seed =
      [("last", u._cache_value)] := by
    rcases hd : load_dependencies dep_data u.dependencies (seed_context u) with
      e1 | c1
    · simp [_core_execute, hd]
      rfl
    · rcases hc : call_function ev u with e2 | raw
      · simp [_core_execute, hd, hc]
        rfl
      · rcases ht : return_transform ev u.return_expr (bind_self u c1 raw) raw
          with e3 | res
        · simp [_core_execute, hd, hc, ht]
          rfl
        · simp [_core_execute, hd, hc, ht]
          rfl
  refine ⟨hseed, ?_, ?_, ?_⟩
  · intro hne
    rw [hseed]
    unfold Ctx.get
    rw [if_neg fun h => hne h.symm]
    rfl
  · intro ctx1 raw hd hc
    refine ⟨?_, ?_, ?_⟩
    · rcases ht : return_transform ev u.return_expr (bind_self u ctx1 raw) raw
        with e3 | res
      · simp [_core_execute, hd, hc, ht]
      · simp [_core_execute, hd, hc, ht]
    · intro hne
      unfold bind_self
      rw [Ctx.get_set_ne _ _ _ _ fun h => hne h.symm]
      exact Ctx.get_set_self _ _ _
    · exact Ctx.get_set_self _ _ _
  · intro ctx1 raw res hd hc ht
    refine ⟨?_, ?_, ?_⟩
    · simp [_core_execute, hd, hc, ht]
    · intro hne
      unfold bind_self
      rw [Ctx.get_set_ne _ _ _ _ fun h => hne h.symm]
      exact Ctx.get_set_self _ _ _
    · exact Ctx.get_set_self _ _ _

/-- Closed instantiations of every part of
`claim_C9_context_bindings`. -/
theorem claim_C9_witness :
    ((_core_execute evSample depNone actOk u_c7 3).2.ctx_seed =
      [("last", Val.none)]) ∧
    (Ctx.get (_core_execute evSample depNone actOk u_c7 3).2.ctx_seed "t" =
      Option.none) ∧
    ((_core_execute evSample depNone actOk u_c7 3).2.ctx_raw =
      some (bind_self u_c7 (seed_context u_c7) (Val.int 1))) ∧
    (Ctx.get (bind_self u_c7 (seed_context u_c7) (Val.int 1)) "t" =
      some (Val.int 1)) ∧
    (Ctx.get (bind_self u_c7 (seed_context u_c7) (Val.int 1)) "this" =
      some (Val.int 1)) ∧
    ((_core_execute evSample depNone actOk u_c7 3).2.ctx_final =
      some (bind_self u_c7 (bind_self u_c7 (seed_context u_c7) (Val.int 1))
        (Val.int 1))) := by
  refine ⟨?_, ?_, ?_, ?_, ?_, ?_⟩
  · exact (claim_C9_context_bindings evSample depNone actOk u_c7 3).1
  · exact (claim_C9_context_bindings evSample depNone actOk u_c7 3).2.1
      (by decide)
  · exact ((claim_C9_context_bindings evSample depNone actOk u_c7 3).2.2.1
      (seed_context u_c7) (Val.int 1) rfl rfl).1
  · exact ((claim_C9_context_bindings evSample depNone actOk u_c7 3).2.2.1
      (seed_context u_c7) (Val.int 1) rfl rfl).2.1
      (by decide)
  · exact ((claim_C9_context_bindings evSample depNone actOk u_c7 3).2.2.1
      (seed_context u_c7) (Val.int 1) rfl rfl).2.2
  · exact ((claim_C9_context_bindings evSample depNone actOk u_c7 3).2.2.2
      (seed_context u_c7) (Val.int 1) (Val.int 1) rfl rfl rfl).1

/-- C10: when the configured `return_expr` evaluates (against the full
context) to a string, that string is evaluated once more by `_eval(result)`
— i.e. against the empty context, where `last`, dependency names, the own
name and `this` are not bound — so the pass outcome is determined by the
oracle's behaviour at `(s, [])`: on success the pass commits the
second-pass value, and on failure the pass aborts without committing, the
unit unchanged and no effects. -/
theorem claim_C10_return_double_eval (ev : EvalFn) (dep_data : DepFn)
    (runAct : ActFn) (u : TaskUnit) (now : Int) (re : String) (ctx1 : Ctx)
    (raw : Val) (s : String)
    (hre : u.return_expr = some re)
    (hdeps : load_dependencies dep_data u.dependencies (seed_context u) =
      Except.ok ctx1)
    (hcall : call_function ev u = Except.ok raw)
    (hfirst : _eval ev re (bind_self u ctx1 raw) = Except.ok (Val.str s)) :
    (return_transform ev u.return_expr (bind_self u ctx1 raw) raw =
      _eval ev s []) ∧
    (∀ v : Val, _eval ev s [] = Except.ok v →
      (_core_execute ev dep_data runAct u now).1 =
        Except.ok (commit_and_condition ev runAct u now
          (bind_self u (bind_self u ctx1 raw) v) v)) ∧
    (∀ err : PyErr, _eval ev s [] = Except.error err →
      (_core_execute ev dep_data runAct u now).1 =
        Except.ok (u, PassEffects.nil)) := by
  refine ⟨?_, ?_, ?_⟩
  · simp [return_transform, hre, hfirst]
  · intro v hv
    simp [_core_execute, hdeps, hcall, return_transform, hre, hfirst, hv]
  · intro err he
    simp [_core_execute, hdeps, hcall, return_transform, hre, hfirst, he]

/-- Eval oracle for the C10 witness: `RE` yields the string `1+1`, which
then evaluates to `2` in the empty context; `REBAD` yields the string
`nope`, whose second evaluation raises. -/
def ev_c10 : EvalFn := fun e _ =>
  if e = "RE" then Except.ok (Val.str "1+1")
  else if e = "REBAD" then Except.ok (Val.str "nope")
  else if e = "1+1" then Except.ok (Val.int 2)
  else Except.error (PyErr.other "NameError")

/-- A unit whose return expression produces an evaluable string. -/
def u_c10 : TaskUnit :=
  { sampleUnit with return_expr := some "RE" }

/-- A unit whose return expression produces a string whose second
evaluation fails. -/
def u_c10b : TaskUnit :=
  { sampleUnit with return_expr := some "REBAD" }

/-- Closed instantiations of every part of
`claim_C10_return_double_eval`, one per second-pass outcome. -/
theorem claim_C10_witness :
    (return_transform ev_c10 u_c10.return_expr
        (bind_self u_c10 (seed_context u_c10) Val.none) Val.none =
      _eval ev_c10 "1+1" []) ∧
    ((_core_execute ev_c10 depNone actOk u_c10 0).1 =
      Except.ok (commit_and_condition ev_c10 actOk u_c10 0
        (bind_self u_c10 (bind_self u_c10 (seed_context u_c10) Val.none)
          (Val.int 2)) (Val.int 2))) ∧
    ((_core_execute ev_c10 depNone actOk u_c10b 0).1 =
      Except.ok (u_c10b, PassEffects.nil)) := by
  refine ⟨?_, ?_, ?_⟩
  · exact (claim_C10_return_double_eval ev_c10 depNone actOk u_c10 0 "RE"
      (seed_context u_c10) Val.none "1+1" rfl rfl rfl rfl).1
  · exact (claim_C10_return_double_eval ev_c10 depNone actOk u_c10 0 "RE"
      (seed_context u_c10) Val.none "1+1" rfl rfl rfl rfl).2.1 (Val.int 2) rfl
  · exact (claim_C10_return_double_eval ev_c10 depNone actOk u_c10b 0 "REBAD"
      (seed_context u_c10b) Val.none "nope" rfl rfl rfl rfl).2.2
      (PyErr.other "NameError") rfl

end CryptoM
